import Mathlib

/-!
# MirrorFS: a shallow embedding of the node/handle layer

A verification development for the `mirrorfs` passthrough filesystem
(`fs.go`, `node.go` and helper files).  Paths are modelled as lists of
components, host filesystem state as explicit functions from paths to stat
outcomes, and each host call that can fail carries an explicit fault
injection (`Option Syserr`, `none` meaning success), so the pure Lean
functions below transcribe the Go method bodies step by step.
-/

namespace MirrorFS

/-- Host (syscall-level) error numbers that appear in the error paths the
code can observe: the ones Go's `os.IsExist`, `os.IsNotExist` and
`os.IsPermission` classify, plus the ones `pread(2)` can report. -/
inductive Syserr where
  | eexist
  | enotempty
  | enoent
  | eacces
  | eperm
  | eagain
  | ebadf
  | eintr
  | einval
  | eio
  | eisdir
  | enxio
  | eoverflow
  | espipe
deriving DecidableEq, Repr

/-- Go `os.IsExist`: true for `EEXIST` and `ENOTEMPTY`. -/
def isExist : Syserr → Bool
  | .eexist => true
  | .enotempty => true
  | _ => false

/-- Go `os.IsNotExist`: true for `ENOENT`. -/
def isNotExist : Syserr → Bool
  | .enoent => true
  | _ => false

/-- Go `os.IsPermission`: true for `EACCES` and `EPERM`. -/
def isPermission : Syserr → Bool
  | .eacces => true
  | .eperm => true
  | _ => false

/-- The protocol (FUSE) error codes the error translator produces:
`fuse.EEXIST`, `fuse.ENOENT`, `fuse.EPERM` and `fuse.DefaultErrno`, which
in the bridge library equals `EIO` (the generic I/O error). -/
inductive Errno where
  | eexist
  | enoent
  | eperm
  | eio
deriving DecidableEq, Repr

/-- The error translator `errno` (helpers file): classifies a host error
with `os.IsExist` / `os.IsNotExist` / `os.IsPermission` and otherwise
returns `fuse.DefaultErrno` (= `EIO`). -/
def errno (e : Syserr) : Errno :=
  if isExist e then .eexist
  else if isNotExist e then .enoent
  else if isPermission e then .eperm
  else .eio

/-- A filesystem path, as its list of components. -/
abbrev Path := List String

/-- `FileSystem` (fs.go): the mount root and the mirror root.  (The cached
root node is reconstructed by `makeNode fs fs.mount` and not stored.) -/
structure FileSystem where
  mount : Path
  mirror : Path
deriving DecidableEq, Repr

/-- `Node` (node.go): one path in the mount namespace, with a reference to
its file system.  The open-handle slot `file` is modelled separately by
the handle state machine below. -/
structure Node where
  path : Path
  fs : FileSystem
deriving DecidableEq, Repr

/-- `FileSystem.makeNode` (fs.go): constructs a Node bound to this file
system; in the source it returns `(&Node{path, fs, nil}, nil)` — the
error is always `nil`, so the embedding is a total function. -/
def makeNode (fs : FileSystem) (p : Path) : Node :=
  { path := p, fs := fs }

/-- `filepath.Rel base targ` restricted to the case the claims quantify
over: when `base` is a prefix of `targ` it returns the remainder of
`targ`, otherwise it fails (`none`; the Go caller discards the error and
gets the zero value). -/
def filepathRel (base targ : Path) : Option Path :=
  if base.isPrefixOf targ then some (targ.drop base.length) else none

/-- `Node.mirrorPath` (node.go): `rel, _ := filepath.Rel(n.fs.mount,
n.path); return filepath.Join(n.fs.mirror, rel)`.  The discarded error
leaves `rel` at its zero value (the empty path). -/
def mirrorPath (n : Node) : Path :=
  let rel := (filepathRel n.fs.mount n.path).getD []
  n.fs.mirror ++ rel

/-- The mirror path as the specification words it: `mirrorRoot +
relative(path, mountRoot)`, for a path under the mount root. -/
def specMirrorPath (mirrorRoot mountRoot p : Path) : Path :=
  mirrorRoot ++ p.drop mountRoot.length

/-- A stat result (`os.FileInfo` plus `syscall.Stat_t`), with times as
naturals. -/
structure Stat where
  ino : Nat
  size : Nat
  uid : Nat
  gid : Nat
  mode : Nat
  atime : Nat
  mtime : Nat
  isDir : Bool
deriving DecidableEq, Repr

/-- The attribute record (`fuse.Attr`) with the fields `Node.Attr`
populates. -/
structure Attr where
  ino : Nat
  size : Nat
  uid : Nat
  gid : Nat
  mode : Nat
  atime : Nat
  mtime : Nat
deriving DecidableEq, Repr

/-- The body of `Node.Attr` after a successful stat: every field comes
from the stat result except `Atime`, which is set to `time.Now()` taken
at the start of the call. -/
def attrOf (st : Stat) (now : Nat) : Attr :=
  { ino := st.ino, size := st.size, uid := st.uid, gid := st.gid
    mode := st.mode, atime := now, mtime := st.mtime }

/-- The mirror tree's live state, as what `os.Stat` returns at each path:
either a stat result or a host error. -/
abbrev StatWorld := Path → Except Syserr Stat

/-- `Node.Attr` (node.go): stats the mirror path (via `info()`); on error
returns `errno(err)`; otherwise fills the attributes with `attrOf`,
where `now` is the wall-clock time read at the start of the call. -/
def nodeAttr (n : Node) (w : StatWorld) (now : Nat) : Except Errno Attr :=
  match w (mirrorPath n) with
  | .error e => .error (errno e)
  | .ok st => .ok (attrOf st now)

/-- `pathExists` (helpers file): `_, err := os.Stat(path); return
!os.IsNotExist(err)`.  A successful stat has `err = nil` and
`os.IsNotExist(nil) = false`, so it returns true. -/
def pathExists (w : StatWorld) (p : Path) : Bool :=
  match w p with
  | .ok _ => true
  | .error e => !(isNotExist e)

/-- `Node.Lookup` (node.go): joins `name` onto the node's path, builds the
child with `makeNode` (which cannot fail), and returns `fuse.ENOENT`
unless `pathExists(node.mirrorPath())`. -/
def lookup (n : Node) (name : String) (w : StatWorld) : Except Errno Node :=
  let node := makeNode n.fs (n.path ++ [name])
  if pathExists w (mirrorPath node) then .ok node else .error .enoent

/-- The validity mask of a `fuse.SetattrRequest`: which fields the request
marks present (`req.Valid.Size()`, `req.Valid.Uid()`, ...). -/
structure SetattrValid where
  size : Bool
  uid : Bool
  gid : Bool
  mode : Bool
  atime : Bool
  atimeNow : Bool
  mtime : Bool
  mtimeNow : Bool
  handle : Bool
  lockOwner : Bool
  bkuptime : Bool
  chgtime : Bool
  crtime : Bool
  flags : Bool
deriving DecidableEq, Repr

/-- A `fuse.SetattrRequest`: the validity mask plus the requested
values. -/
structure SetattrRequest where
  valid : SetattrValid
  size : Nat
  uid : Nat
  gid : Nat
  mode : Nat
  atime : Nat
  mtime : Nat
deriving DecidableEq, Repr

/-- Fault injection for the host calls `Setattr` makes on the mirror
path: `none` means the call succeeds, `some e` means it fails with host
error `e` and leaves the object unchanged. -/
structure HostFaults where
  truncErr : Option Syserr
  chownErr : Option Syserr
  chmodErr : Option Syserr
  chtimesErr : Option Syserr
deriving DecidableEq, Repr

/-- The all-successful host behaviour. -/
def noFaults : HostFaults :=
  { truncErr := none, chownErr := none, chmodErr := none, chtimesErr := none }

/-- `Node.Attr`'s body applied to the object at the mirror path (the
stat outcome), used both for `Attr` itself and for the re-stat at the
end of `Setattr`. -/
def objAttr (obj : Except Syserr Stat) (now : Nat) : Except Errno Attr :=
  match obj with
  | .error e => .error (errno e)
  | .ok st => .ok (attrOf st now)

/-- The `req.Valid.Size()` step of `Setattr`: truncate the mirror file to
the requested length unless the object is a directory (then only a
caution is logged and nothing happens); a truncate error is returned. -/
def truncStep (req : SetattrRequest) (st0 : Stat) (fl : HostFaults) :
    Except Errno Stat :=
  if req.valid.size then
    if !st0.isDir then
      match fl.truncErr with
      | some e => .error (errno e)
      | none => .ok { st0 with size := req.size }
    else .ok st0
  else .ok st0

/-- The `req.Valid.Uid() || req.Valid.Gid()` step of `Setattr`: chown the
mirror path, the absent half of the pair defaulting to the value from the
initial stat `st0`; a chown error is returned. -/
def chownStep (req : SetattrRequest) (st0 st1 : Stat) (fl : HostFaults) :
    Except Errno Stat :=
  if req.valid.uid || req.valid.gid then
    let uid := if req.valid.uid then req.uid else st0.uid
    let gid := if req.valid.gid then req.gid else st0.gid
    match fl.chownErr with
    | some e => .error (errno e)
    | none => .ok { st1 with uid := uid, gid := gid }
  else .ok st1

/-- The `req.Valid.Mode()` step of `Setattr`: `os.Chmod(...)` with the
returned error discarded, so a chmod failure leaves the object as it
was and the step never fails. -/
def chmodStep (req : SetattrRequest) (st2 : Stat) (fl : HostFaults) :
    Stat :=
  if req.valid.mode then
    match fl.chmodErr with
    | some _ => st2
    | none => { st2 with mode := req.mode }
  else st2

/-- The time step of `Setattr`: `os.Chtimes(...)` with the returned error
discarded; the `Now` flags resolve to the wall clock `now`, explicit
values come from the request, and the rest fall back to the initial stat
`st0`. -/
def timesStep (req : SetattrRequest) (st0 st3 : Stat) (fl : HostFaults)
    (now : Nat) : Stat :=
  if req.valid.atime || req.valid.atimeNow
      || req.valid.mtime || req.valid.mtimeNow then
    let atv := if req.valid.atimeNow then now
      else if req.valid.atime then req.atime else st0.atime
    let mtv := if req.valid.mtimeNow then now
      else if req.valid.mtime then req.mtime else st0.mtime
    match fl.chtimesErr with
    | some _ => st3
    | none => { st3 with atime := atv, mtime := mtv }
  else st3

/-- `Node.Setattr` (node.go), transcribed over the object at the node's
mirror path.  `obj` is what `os.Stat` reports there at entry, `fl` the
outcomes of the host mutation calls, `now` the wall clock during the
mutations (`time.Now()` for the `AtimeNow`/`MtimeNow` flags) and `now2`
the wall clock inside the final re-invocation of `Attr`.  Returns the
method's result together with the post-call state of the object.  The
initial `info()` stat returns `errno(err)` on failure; then the truncate,
chown, chmod and chtimes steps run in order (the first two can return an
error, the last two cannot); the unhandled mask bits (handle, lock owner,
bkuptime, chgtime, crtime, flags) are only logged; finally the response
is produced by re-invoking `Attr`. -/
def setattr (req : SetattrRequest) (obj : Except Syserr Stat)
    (fl : HostFaults) (now now2 : Nat) :
    Except Errno Attr × Except Syserr Stat :=
  match obj with
  | .error e => (.error (errno e), obj)
  | .ok st0 =>
    match truncStep req st0 fl with
    | .error er => (.error er, .ok st0)
    | .ok st1 =>
      match chownStep req st0 st1 fl with
      | .error er => (.error er, .ok st1)
      | .ok st2 =>
        let st4 := timesStep req st0 (chmodStep req st2 fl) fl now
        (objAttr (.ok st4) now2, .ok st4)

/-- An open file description bound to a node (`n.file`): its content plus
fault injection for the host read (`none` = the read succeeds against
`content`). -/
structure OpenFile where
  content : List Nat
  readErr : Option Syserr
deriving DecidableEq, Repr

/-- The outcome of `File.ReadAt(buf, off)` per the `io.ReaderAt`
contract: a full read of `len(buf)` bytes with `err = nil`, a short read
at end-of-file with `err = io.EOF`, or a host error. -/
inductive ReadAtResult where
  | full (bytes : List Nat)
  | eofShort (bytes : List Nat)
  | hostErr (e : Syserr)
deriving DecidableEq, Repr

/-- `File.ReadAt` on the modelled open file: with no injected fault it
returns the bytes of `content` from `off`, at most `size` of them, as a
full read when `size` bytes were available and as a short read with
`io.EOF` otherwise. -/
def readAt (f : OpenFile) (off size : Nat) : ReadAtResult :=
  match f.readErr with
  | some e => .hostErr e
  | none =>
    let avail := (f.content.drop off).take size
    if avail.length = size then .full avail else .eofShort avail

/-- Host errors `pread(2)` (hence `File.ReadAt` on an open descriptor)
can report besides end-of-file, per the POSIX contract: EAGAIN, EBADF,
EINTR, EINVAL, EIO, EISDIR, ENXIO, EOVERFLOW, ESPIPE. -/
def preadErrs : List Syserr :=
  [.eagain, .ebadf, .eintr, .einval, .eio, .eisdir, .enxio, .eoverflow,
   .espipe]

/-- The read body of `Node.Read` (node.go) on an open descriptor:
`resp.Data = make([]byte, req.Size)`, `ReadAt`, then on `io.EOF` the
data is resliced to the bytes actually read and `nil` is returned, on
any other error `errno(err)` is returned, and otherwise the full buffer
stands. -/
def nodeRead (f : OpenFile) (off size : Nat) : Except Errno (List Nat) :=
  match readAt f off size with
  | .full bytes => .ok bytes
  | .eofShort bytes => .ok bytes
  | .hostErr e => .error (errno e)

/-- The fault behaviour of an open descriptor for `Sync` and `Close`
(`none` = the call succeeds). -/
structure Handle where
  syncErr : Option Syserr
  closeErr : Option Syserr
deriving DecidableEq, Repr

/-- What `Node.Release` returns: the method result, the node's handle
slot afterwards, and the host errors that were only logged
(`caution(err.Error())`). -/
structure ReleaseResult where
  result : Except Errno Unit
  handle : Option Handle
  logged : List Syserr
deriving Repr

/-- `Node.Release` (node.go): if `n.file != nil`, sync when the release
flags request a flush (error logged), close (error logged), set
`n.file = nil`; always returns `nil`. -/
def release (h : Option Handle) (flushRequested : Bool) : ReleaseResult :=
  match h with
  | none => { result := .ok (), handle := none, logged := [] }
  | some f =>
    let log1 :=
      if flushRequested then
        match f.syncErr with
        | some e => [e]
        | none => []
      else []
    let log2 :=
      match f.closeErr with
      | some e => [e]
      | none => []
    { result := .ok (), handle := none, logged := log1 ++ log2 }

/-- The protocol operations dispatched onto one Node, as they act on that
node's own handle slot.  `read`/`write` carry the outcome of the lazy
`os.OpenFile` when the slot is empty (`some` = opened descriptor,
`none` = stat/open failed and an error was returned); `create` carries
the outcome of the `os.OpenFile` that binds the fresh child node's
slot; `release` carries whether the release flags request a flush. -/
inductive Op where
  | attr
  | setattr
  | lookup
  | readdir
  | mkdir
  | remove
  | rename
  | read (opened : Option Handle)
  | write (opened : Option Handle)
  | create (opened : Option Handle)
  | fsync
  | flush
  | release (flushRequested : Bool)
deriving DecidableEq, Repr

/-- The operations that may bind a descriptor. -/
def Op.isOpener : Op → Bool
  | .read _ => true
  | .write _ => true
  | .create _ => true
  | _ => false

/-- Whether the operation is a `Release`. -/
def Op.isRelease : Op → Bool
  | .release _ => true
  | _ => false

/-- How each method of node.go changes the node's own handle slot:
`Read`/`Write` open lazily only when the slot is empty (`n.file == nil`)
and never close it, `Create` binds the opened descriptor to the fresh
node (whose slot starts empty), `Release` ends with the slot empty in
every case, `Fsync` syncs an open descriptor without rebinding, `Flush`
is a no-op, and the attribute/directory methods never touch the slot. -/
def step : Option Handle → Op → Option Handle
  | none, .read opened => opened
  | some f, .read _ => some f
  | none, .write opened => opened
  | some f, .write _ => some f
  | none, .create opened => opened
  | some f, .create _ => some f
  | h, .fsync => h
  | h, .flush => h
  | _, .release _ => none
  | h, .attr => h
  | h, .setattr => h
  | h, .lookup => h
  | h, .readdir => h
  | h, .mkdir => h
  | h, .remove => h
  | h, .rename => h

/-- The child node `Lookup` constructs for `name` in directory `n`. -/
def childNode (n : Node) (name : String) : Node :=
  makeNode n.fs (n.path ++ [name])

/-- Whether a method result is a success. -/
def isOk {ε α : Type _} : Except ε α → Bool
  | .ok _ => true
  | .error _ => false

/-! ### Concrete sample values, used to exercise the theorems -/

/-- A sample file system mounted at `/m` mirroring to `/r`. -/
def fsA : FileSystem := { mount := ["m"], mirror := ["r"] }

/-- The root node of the sample file system. -/
def nA : Node := makeNode fsA ["m"]

/-- A sample stat result for a regular file. -/
def st0 : Stat :=
  { ino := 1, size := 5, uid := 10, gid := 20, mode := 420, atime := 100
    mtime := 200, isDir := false }

/-- A mirror tree where every stat succeeds with `st0`. -/
def wOk : StatWorld := fun _ => .ok st0

/-- A mirror tree where every stat fails with `ENOENT`. -/
def wMissing : StatWorld := fun _ => .error .enoent

/-- A mirror tree where every stat fails with `EACCES`. -/
def wDenied : StatWorld := fun _ => .error .eacces

/-- The all-clear validity mask. -/
def noValid : SetattrValid :=
  { size := false, uid := false, gid := false, mode := false, atime := false
    atimeNow := false, mtime := false, mtimeNow := false, handle := false
    lockOwner := false, bkuptime := false, chgtime := false, crtime := false
    flags := false }

/-- A request with no field marked present. -/
def baseReq : SetattrRequest :=
  { valid := noValid, size := 0, uid := 0, gid := 0, mode := 0, atime := 0
    mtime := 0 }

/-- A request only changing the owning uid. -/
def chownReq : SetattrRequest :=
  { baseReq with valid := { noValid with uid := true } }

/-- A request only changing the permission bits. -/
def modeReq : SetattrRequest :=
  { baseReq with valid := { noValid with mode := true }, mode := 511 }

/-- A request only changing the modification time. -/
def timeReq : SetattrRequest :=
  { baseReq with valid := { noValid with mtime := true }, mtime := 9 }

/-- Host behaviour where only chown fails (with `EPERM`). -/
def chownFails : HostFaults := { noFaults with chownErr := some .eperm }

/-- Host behaviour where only chmod fails (with `EACCES`). -/
def chmodFails : HostFaults := { noFaults with chmodErr := some .eacces }

/-- Host behaviour where only chtimes fails (with `EIO`). -/
def chtimesFails : HostFaults := { noFaults with chtimesErr := some .eio }

/-- A descriptor whose sync and close succeed. -/
def h0 : Handle := { syncErr := none, closeErr := none }

/-! ### Helper lemmas -/

/-- With no injected read fault, the read body always succeeds with the
bytes of the content from the offset, at most `size` of them. -/
theorem nodeRead_ok (f : OpenFile) (off size : Nat) (h : f.readErr = none) :
    nodeRead f off size = .ok ((f.content.drop off).take size) := by
  unfold nodeRead readAt
  rw [h]
  dsimp only
  by_cases hc : (List.take size (List.drop off f.content)).length = size
  · rw [if_pos hc]
  · rw [if_neg hc]

/-- With an injected read fault, the read body returns the translated
error. -/
theorem nodeRead_err (f : OpenFile) (off size : Nat) (e : Syserr)
    (h : f.readErr = some e) : nodeRead f off size = .error (errno e) := by
  unfold nodeRead readAt
  rw [h]

/-- When the host truncate does not fail, the size step always
succeeds. -/
theorem truncStep_ok_of_none (req : SetattrRequest) (st0 : Stat)
    (fl : HostFaults) (ht : fl.truncErr = none) :
    ∃ st1, truncStep req st0 fl = .ok st1 := by
  unfold truncStep
  rw [ht]
  by_cases hsz : req.valid.size = true <;> by_cases hdir : st0.isDir = true <;>
    simp [hsz, hdir]

/-- When no size change is requested, the size step is the identity. -/
theorem truncStep_skip (req : SetattrRequest) (st0 : Stat)
    (fl : HostFaults) (hs : req.valid.size = false) :
    truncStep req st0 fl = .ok st0 := by
  simp [truncStep, hs]

/-- When the host chown does not fail, the chown step always
succeeds. -/
theorem chownStep_ok_of_none (req : SetattrRequest) (st0 st1 : Stat)
    (fl : HostFaults) (hc : fl.chownErr = none) :
    ∃ st2, chownStep req st0 st1 fl = .ok st2 := by
  unfold chownStep
  rw [hc]
  by_cases hug : (req.valid.uid || req.valid.gid) = true <;> simp [hug]

/-- When no ownership change is requested, the chown step is the
identity. -/
theorem chownStep_skip (req : SetattrRequest) (st0 st1 : Stat)
    (fl : HostFaults) (hu : req.valid.uid = false)
    (hg : req.valid.gid = false) :
    chownStep req st0 st1 fl = .ok st1 := by
  simp [chownStep, hu, hg]

/-- When an ownership change is requested and the host chown fails, the
chown step returns the translated error. -/
theorem chownStep_error_of_some (req : SetattrRequest) (st0 st1 : Stat)
    (fl : HostFaults) (e : Syserr)
    (hug : (req.valid.uid || req.valid.gid) = true)
    (hc : fl.chownErr = some e) :
    chownStep req st0 st1 fl = .error (errno e) := by
  simp [chownStep, hug, hc]

/-! ### Claim theorems -/

/-- C1: for every Node whose path lies under the mount root, the path
mapper returns exactly the mirror root joined with the path's relation to
the mount root, `mirrorPath(node) = mirrorRoot + relative(node.path,
mountRoot)`; the embedding is a total function with no failure mode,
matching the pure, I/O-free source. -/
theorem mirrorPath_matches_spec (n : Node)
    (h : n.fs.mount.isPrefixOf n.path = true) :
    mirrorPath n = specMirrorPath n.fs.mirror n.fs.mount n.path := by
  simp [mirrorPath, specMirrorPath, filepathRel, h]

/-- Witness for C1 at the concrete node `/m/a` of the sample file
system. -/
theorem mirrorPath_matches_spec_witness :
    mirrorPath (makeNode fsA ["m", "a"]) = specMirrorPath ["r"] ["m"] ["m", "a"] :=
  mirrorPath_matches_spec (makeNode fsA ["m", "a"]) (by decide)

/-- C3: `Lookup(name)` fails with `NotFound` when the stat of the child's
mirror path reports not-exist; when the mirror entry exists it returns the
child node, whose mirror path then satisfies `pathExists`; and the only
error `Lookup` can produce is that `NotFound`, since node construction
never fails. -/
theorem lookup_checks_mirror_existence (n : Node) (name : String)
    (w : StatWorld) :
    (∀ e : Syserr, w (mirrorPath (childNode n name)) = .error e →
      isNotExist e = true → lookup n name w = .error .enoent) ∧
    (∀ st : Stat, w (mirrorPath (childNode n name)) = .ok st →
      lookup n name w = .ok (childNode n name) ∧
        pathExists w (mirrorPath (childNode n name)) = true) ∧
    (∀ er : Errno, lookup n name w = .error er → er = .enoent) := by
  refine ⟨?_, ?_, ?_⟩
  · intro e he hne
    simp [lookup, pathExists, childNode, he, hne] at *
  · intro st hst
    unfold childNode at hst
    constructor
    · simp [lookup, pathExists, childNode, hst]
    · simp [pathExists, childNode, hst]
  · intro er her
    unfold lookup at her
    by_cases hp : pathExists w (mirrorPath (makeNode n.fs (n.path ++ [name]))) = true
    · rw [if_pos hp] at her
      cases her
    · rw [if_neg hp] at her
      cases her
      rfl

/-- Witness for C3: on the sample directory, a missing mirror entry yields
`NotFound` and a present one yields the child node. -/
theorem lookup_checks_mirror_existence_witness :
    lookup nA "a" wMissing = .error .enoent ∧
    lookup nA "a" wOk = .ok (childNode nA "a") :=
  ⟨(lookup_checks_mirror_existence nA "a" wMissing).1 .enoent rfl rfl,
   ((lookup_checks_mirror_existence nA "a" wOk).2.1 st0 rfl).1⟩

/-- C4: for every handle state and flush flag, `Release` returns success
and leaves the handle slot empty; sync and close errors only reach the
log. -/
theorem release_always_ok_clears_handle (h : Option Handle) (fr : Bool) :
    (release h fr).result = .ok () ∧ (release h fr).handle = none := by
  cases h <;> simp [release]

/-- C5: the node's handle slot follows the two-state machine: from Closed
it can become Open only through Read, Write or Create; from Open it can
become Closed only through Release; a non-release operation on an Open
node keeps the same descriptor; and an operation that neither opens nor
releases never changes the slot (in particular Fsync and Flush do not). -/
theorem handle_two_state_machine (h : Option Handle) (op : Op) :
    ((step none op).isSome = true → op.isOpener = true) ∧
    (∀ f : Handle, step (some f) op = none → op.isRelease = true) ∧
    (∀ f : Handle, op.isRelease = false → step (some f) op = some f) ∧
    (op.isOpener = false → op.isRelease = false → step h op = h) := by
  refine ⟨?_, ?_, ?_, ?_⟩
  · cases op <;> simp [step, Op.isOpener]
  · intro f hf
    cases op <;> simp_all [step, Op.isRelease]
  · intro f hr
    cases op <;> simp_all [step, Op.isRelease]
  · intro ho hr
    cases op <;> cases h <;> simp_all [step, Op.isOpener, Op.isRelease]

/-- Witness for C5: a Read on a Closed node with a successful lazy open
is an opener, and Release is the releasing operation. -/
theorem handle_two_state_machine_witness :
    Op.isOpener (Op.read (some h0)) = true ∧
    Op.isRelease (Op.release true) = true :=
  ⟨(handle_two_state_machine none (Op.read (some h0))).1 rfl,
   (handle_two_state_machine (some h0) (Op.release true)).2.1 h0 rfl⟩

/-- C7: a Read whose underlying file ends before `offset + size` succeeds
with exactly the bytes available from the offset to end-of-file (at most
`size` of them) rather than an error, and any read failure other than
end-of-file comes back as the translated error, which for every host
error a read can report is the generic I/O error. -/
theorem read_eof_truncates_other_errors_eio (c : List Nat)
    (off size : Nat) (e : Syserr) (hlen : c.length < off + size)
    (he : e ∈ preadErrs) :
    (nodeRead { content := c, readErr := none } off size = .ok (c.drop off) ∧
      (c.drop off).length ≤ size) ∧
    (nodeRead { content := c, readErr := some e } off size =
        .error (errno e) ∧
      errno e = .eio) := by
  have hle : (c.drop off).length ≤ size := by
    rw [List.length_drop]
    omega
  refine ⟨⟨?_, hle⟩, nodeRead_err _ off size e rfl, ?_⟩
  · have h1 := nodeRead_ok { content := c, readErr := none } off size rfl
    rwa [List.take_of_length_le hle] at h1
  · simp only [preadErrs, List.mem_cons, List.not_mem_nil, or_false] at he
    rcases he with rfl | rfl | rfl | rfl | rfl | rfl | rfl | rfl | rfl <;> rfl

/-- Witness for C7 on the 3-byte file `[1, 2, 3]`, reading 5 bytes at
offset 2 and failing a read with `EBADF`. -/
theorem read_eof_truncates_other_errors_eio_witness :
    (nodeRead { content := [1, 2, 3], readErr := none } 2 5 = .ok [3] ∧
      ([1, 2, 3].drop 2).length ≤ 5) ∧
    (nodeRead { content := [1, 2, 3], readErr := some .ebadf } 2 5 =
        .error (errno .ebadf) ∧
      errno .ebadf = .eio) :=
  read_eof_truncates_other_errors_eio [1, 2, 3] 2 5 .ebadf (by decide)
    (by decide)

/-- C8: when the stat of the mirror path succeeds, `Attr` fills size,
uid, gid, permission bits and modification time from the live stat
result, and sets the access time to the wall clock read at the call, for
every stored access time. -/
theorem attr_from_live_stat_atime_now (n : Node) (w : StatWorld)
    (now : Nat) (st : Stat) (h : w (mirrorPath n) = .ok st) :
    nodeAttr n w now = .ok (attrOf st now) ∧
    (attrOf st now).size = st.size ∧ (attrOf st now).uid = st.uid ∧
    (attrOf st now).gid = st.gid ∧ (attrOf st now).mode = st.mode ∧
    (attrOf st now).mtime = st.mtime ∧ (attrOf st now).atime = now := by
  simp [nodeAttr, attrOf, h]

/-- Witness for C8 at the sample node whose stored access time (100)
differs from the wall clock (7). -/
theorem attr_from_live_stat_atime_now_witness :
    nodeAttr nA wOk 7 = .ok (attrOf st0 7) ∧
    (attrOf st0 7).size = st0.size ∧ (attrOf st0 7).uid = st0.uid ∧
    (attrOf st0 7).gid = st0.gid ∧ (attrOf st0 7).mode = st0.mode ∧
    (attrOf st0 7).mtime = st0.mtime ∧ (attrOf st0 7).atime = 7 :=
  attr_from_live_stat_atime_now nA wOk 7 st0 rfl

/-- C9: when the stat of the child's mirror path fails with anything
other than a not-exist error (for example `EACCES`), `Lookup` still
succeeds and returns the child node, because `pathExists` only tests
`os.IsNotExist`. -/
theorem lookup_tolerates_non_notexist_errors (n : Node) (name : String)
    (w : StatWorld) (e : Syserr)
    (h : w (mirrorPath (childNode n name)) = .error e)
    (hne : isNotExist e = false) :
    lookup n name w = .ok (childNode n name) := by
  unfold childNode at h
  simp [lookup, pathExists, childNode, h, hne]

/-- Witness for C9: a permission-denied mirror tree still resolves the
lookup. -/
theorem lookup_tolerates_non_notexist_errors_witness :
    lookup nA "a" wDenied = .ok (childNode nA "a") :=
  lookup_tolerates_non_notexist_errors nA "a" wDenied .eacces rfl rfl

/-- C2 counterexample: on a request that only marks the uid present, a
chown failing with `EPERM` makes `Setattr` return that error, while the
same request with all host calls succeeding returns success — so a chown
failure is propagated and the result does depend on whether chown
succeeded, refuting the claim as stated. -/
theorem setattr_chown_failure_propagated_cex :
    (setattr chownReq (.ok st0) chownFails 0 0).1 = .error .eperm ∧
    (setattr chownReq (.ok st0) noFaults 0 0).1 =
      .ok (attrOf { st0 with uid := 0 } 0) :=
  ⟨rfl, rfl⟩

/-- C2 amended: during `Setattr`, a chmod failure (like a chtimes
failure) is absorbed — once the truncate and chown steps do not fail, the
call succeeds whatever the chmod and chtimes outcomes — while a chown
failure is propagated to the caller as the translated error. -/
theorem setattr_chmod_absorbed_chown_propagated (req : SetattrRequest)
    (st : Stat) (fl : HostFaults) (now now2 : Nat) (e : Syserr) :
    (fl.truncErr = none → fl.chownErr = none →
      isOk (setattr req (.ok st) fl now now2).1 = true) ∧
    (req.valid.size = false → (req.valid.uid || req.valid.gid) = true →
      fl.chownErr = some e →
      (setattr req (.ok st) fl now now2).1 = .error (errno e)) := by
  constructor
  · intro ht hc
    obtain ⟨st1, h1⟩ := truncStep_ok_of_none req st fl ht
    obtain ⟨st2, h2⟩ := chownStep_ok_of_none req st st1 fl hc
    simp [setattr, h1, h2, objAttr, isOk]
  · intro hs hu hc
    simp [setattr, truncStep_skip req st fl hs,
      chownStep_error_of_some req st st fl e hu hc]

/-- Witness for the amended C2: a chmod-only request with a failing chmod
still succeeds, and a chown-only request with a failing chown returns
the translated `EPERM`. -/
theorem setattr_chmod_absorbed_chown_propagated_witness :
    isOk (setattr modeReq (.ok st0) chmodFails 0 0).1 = true ∧
    (setattr chownReq (.ok st0) chownFails 0 0).1 = .error (errno .eperm) :=
  ⟨(setattr_chmod_absorbed_chown_propagated modeReq st0 chmodFails 0 0
      .eperm).1 rfl rfl,
   (setattr_chmod_absorbed_chown_propagated chownReq st0 chownFails 0 0
      .eperm).2 rfl rfl rfl⟩

/-- C6: whenever `Setattr` succeeds, the attributes it returns are
exactly what re-invoking `Attr` on the post-mutation state of the mirror
object produces (with the wall clock of that final call), not a value
computed before or during the mutations. -/
theorem setattr_response_reflects_post_state (req : SetattrRequest)
    (obj : Except Syserr Stat) (fl : HostFaults) (now now2 : Nat)
    (a : Attr) (h : (setattr req obj fl now now2).1 = .ok a) :
    (setattr req obj fl now now2).1 =
      objAttr (setattr req obj fl now now2).2 now2 := by
  rcases obj with e | st0
  · simp [setattr] at h
  · cases h1 : truncStep req st0 fl with
    | error er => simp [setattr, h1] at h
    | ok st1 =>
      cases h2 : chownStep req st0 st1 fl with
      | error er => simp [setattr, h1, h2] at h
      | ok st2 => simp [setattr, h1, h2, objAttr]

/-- Witness for C6: a successful chmod-only `Setattr` responds with the
re-stat of the mutated object. -/
theorem setattr_response_reflects_post_state_witness :
    (setattr modeReq (.ok st0) noFaults 0 0).1 =
      objAttr (setattr modeReq (.ok st0) noFaults 0 0).2 0 :=
  setattr_response_reflects_post_state modeReq (.ok st0) noFaults 0 0
    (attrOf { st0 with mode := 511 } 0) rfl

/-- C10: a chtimes failure is never propagated: on a request whose only
present fields are access and/or modification times, `Setattr` succeeds
whatever the outcome of the time-update host call (its return value is
discarded), so the error outcome does not depend on that call. -/
theorem setattr_chtimes_error_absorbed (req : SetattrRequest) (st : Stat)
    (fl : HostFaults) (now now2 : Nat) (hs : req.valid.size = false)
    (hu : req.valid.uid = false) (hg : req.valid.gid = false)
    (hm : req.valid.mode = false) :
    isOk (setattr req (.ok st) fl now now2).1 = true := by
  simp [setattr, truncStep_skip req st fl hs, chownStep_skip req st st fl hu hg,
    objAttr, isOk]

/-- Witness for C10: an mtime-only request with a failing chtimes still
succeeds. -/
theorem setattr_chtimes_error_absorbed_witness :
    isOk (setattr timeReq (.ok st0) chtimesFails 0 0).1 = true :=
  setattr_chtimes_error_absorbed timeReq st0 chtimesFails 0 0 rfl rfl rfl rfl

end MirrorFS
